import Mathlib

/-!
Shallow embedding of `src/.mitmproxy/record_addon.py` (class `LayeredRecorder`).

Modelling conventions:
* Time is an integer number of milliseconds passed explicitly to each handler
  (the source calls `datetime.now()`; durations are `(t2 - t1).total_seconds() * 1000`,
  i.e. a millisecond difference, modelled here as `Int` subtraction).
* Python dicts used as keyed stores (`performance_metrics`, `request_timestamps`)
  are modelled as association lists with an overwrite-insert `dinsert` and a
  lookup `dlookup`; Python `d[k] = v` is `dinsert`, `k in d` / `d[k]` is `dlookup`.
* `flow.request.content` is `Option (List Nat)` (bytes); Python truthiness of the
  content (`hasattr(...) and flow.request.content`) is `contentTruthy`.
* `flow.request.text` may raise a decode error in Python; it is modelled as
  `Option String`, with `none` standing for the raised error, which the source
  catches and replaces by the `"[binary data]"` sentinel.
* WebSocket message payloads appear after `content.decode('utf-8', errors='replace')`,
  a total function, so a message carries the decoded `String` directly.
* File writes in `done` can fail; `done` takes an oracle `fails : WriteTarget → Bool`
  saying which of the four `json.dump` calls raises, and returns the outcome
  (`Except`) together with the diagnostic-log lines produced, mirroring the
  single `try`/`except` block that logs and re-raises.
-/

namespace RecordAddon

/-- One HTTP request as delivered by the interception engine. -/
structure Request where
  method : String
  url : String
  headers : List (String × String)
  httpVersion : String
  content : Option (List Nat)
  text : Option String
  deriving DecidableEq

/-- One HTTP response as delivered by the interception engine. -/
structure Response where
  statusCode : Nat
  headers : List (String × String)
  httpVersion : String
  content : Option (List Nat)
  text : Option String
  deriving DecidableEq

/-- One WebSocket message: origin flag and decoded payload. -/
structure WsMessage where
  fromClient : Bool
  text : String
  deriving DecidableEq

/-- Request-kind entry of `network_log` (the dict built in `requestheaders`). -/
structure RequestEntry where
  timestamp : Int
  method : String
  url : String
  headers : List (String × String)
  httpVersion : String
  flowId : String
  bodySize : Option Nat
  bodyPreview : Option String
  deriving DecidableEq

/-- Response-kind entry of `network_log` (the dict built in `response`). -/
structure ResponseEntry where
  timestamp : Int
  statusCode : Nat
  headers : List (String × String)
  httpVersion : String
  durationMs : Option Int
  url : String
  flowId : String
  bodySize : Option Nat
  bodyPreview : Option String
  deriving DecidableEq

/-- An entry of the generic log, tagged by its `type` field. -/
inductive ActivityEntry where
  | request : RequestEntry → ActivityEntry
  | response : ResponseEntry → ActivityEntry
  deriving DecidableEq

/-- Value stored in `performance_metrics` under a URL key. -/
structure PerfRecord where
  status : Nat
  responseTimeMs : Option Int
  contentSizeBytes : Nat
  headersCount : Nat
  requestMethod : String
  timestamp : Int
  deriving DecidableEq

/-- Entry of `websocket_messages`. -/
structure WsEntry where
  timestamp : Int
  direction : String
  message : String
  flowId : String
  url : String
  deriving DecidableEq

/-- The mutable fields of a `LayeredRecorder` instance. -/
structure RecState where
  recordLevel : Int
  networkLog : List ActivityEntry
  performanceMetrics : List (String × PerfRecord)
  websocketMessages : List WsEntry
  requestTimestamps : List (String × Int)
  deriving DecidableEq

/-- State right after `__init__(record_level)`: all four stores empty. -/
def initState (recordLevel : Int) : RecState :=
  { recordLevel := recordLevel
    networkLog := []
    performanceMetrics := []
    websocketMessages := []
    requestTimestamps := [] }

/-- Python dict overwrite-insert `d[k] = v` on an association list. -/
def dinsert (k : String) (v : α) : List (String × α) → List (String × α)
  | [] => [(k, v)]
  | (k1, v1) :: rest => if k1 = k then (k, v) :: rest else (k1, v1) :: dinsert k v rest

/-- Python dict lookup: `d[k]` when `k in d`, `none` otherwise. -/
def dlookup (k : String) : List (String × α) → Option α
  | [] => none
  | (k1, v1) :: rest => if k1 = k then some v1 else dlookup k rest

/-- Python truthiness of the content attribute: present and bytes non-empty.
The attribute being absent and the attribute being `None` are both `none`. -/
def contentTruthy : Option (List Nat) → Bool
  | none => false
  | some bs => !bs.isEmpty

/-- `len(content) if content else 0` (and plain `len(content)` agrees on truthy input). -/
def contentLen : Option (List Nat) → Nat
  | none => 0
  | some bs => bs.length

/-- Body preview: `text[:500]`, or the sentinel when decoding raises. -/
def bodyPreviewOf : Option String → String
  | some t => t.take 500
  | none => "[binary data]"

/-- The Request-kind entry built by `requestheaders`: core metadata always,
body fields only at level ≥ 2 with truthy content. -/
def requestEntryOf (s : RecState) (now : Int) (fid : String) (req : Request) : RequestEntry :=
  let base : RequestEntry :=
    { timestamp := now
      method := req.method
      url := req.url
      headers := req.headers
      httpVersion := req.httpVersion
      flowId := fid
      bodySize := none
      bodyPreview := none }
  if 2 ≤ s.recordLevel ∧ contentTruthy req.content then
    { base with bodySize := some (contentLen req.content)
                bodyPreview := some (bodyPreviewOf req.text) }
  else base

/-- Handler `requestheaders(flow)`: stamp the correlator, build a Request-kind
entry, append it to the generic log. -/
def requestheaders (now : Int) (fid : String) (req : Request) (s : RecState) : RecState :=
  { s with requestTimestamps := dinsert fid now s.requestTimestamps
           networkLog := s.networkLog ++ [ActivityEntry.request (requestEntryOf s now fid req)] }

/-- `duration_ms` computation at the top of `response(flow)`. -/
def durationOf (s : RecState) (now : Int) (fid : String) : Option Int :=
  match dlookup fid s.requestTimestamps with
  | some t0 => some (now - t0)
  | none => none

/-- The `performance_metrics` value written for a response at level ≥ 3. -/
def perfRecordOf (s : RecState) (now : Int) (fid : String) (req : Request)
    (resp : Response) : PerfRecord :=
  { status := resp.statusCode
    responseTimeMs := durationOf s now fid
    contentSizeBytes := contentLen resp.content
    headersCount := resp.headers.length
    requestMethod := req.method
    timestamp := now }

/-- The Response-kind entry built by `response`: core metadata and the computed
duration always, body fields only at level ≥ 2 with truthy content. -/
def responseEntryOf (s : RecState) (now : Int) (fid : String) (req : Request)
    (resp : Response) : ResponseEntry :=
  let base : ResponseEntry :=
    { timestamp := now
      statusCode := resp.statusCode
      headers := resp.headers
      httpVersion := resp.httpVersion
      durationMs := durationOf s now fid
      url := req.url
      flowId := fid
      bodySize := none
      bodyPreview := none }
  if 2 ≤ s.recordLevel ∧ contentTruthy resp.content then
    { base with bodySize := some (contentLen resp.content)
                bodyPreview := some (bodyPreviewOf resp.text) }
  else base

/-- Handler `response(flow)`: compute duration from the correlator, build a
Response-kind entry, upsert the performance record at level ≥ 3, append the
entry to the generic log. -/
def response (now : Int) (fid : String) (req : Request) (resp : Response)
    (s : RecState) : RecState :=
  let s1 :=
    if 3 ≤ s.recordLevel then
      { s with performanceMetrics :=
          dinsert req.url (perfRecordOf s now fid req resp) s.performanceMetrics }
    else s
  { s1 with networkLog :=
      s1.networkLog ++ [ActivityEntry.response (responseEntryOf s now fid req resp)] }

/-- Handler `websocket_message(flow)`: at level ≥ 4, append one entry per
message currently in `flow.messages` (the engine's cumulative buffer). -/
def websocket_message (now : Int) (fid : String) (req : Request)
    (messages : List WsMessage) (s : RecState) : RecState :=
  if 4 ≤ s.recordLevel then
    { s with websocketMessages := s.websocketMessages ++ messages.map (fun m =>
        { timestamp := now
          direction := if m.fromClient then "client_to_server" else "server_to_client"
          message := m.text.take 1000
          flowId := fid
          url := req.url }) }
  else s

/-- Handler `websocket_end(flow)`: logging only, no state mutation. -/
def websocket_end (s : RecState) : RecState := s

/-- Handler `configure(updated)`: `some l` means `"record_level" in updated`
with new value `l`; `none` means the option was not updated. -/
def configure (newLevel : Option Int) (s : RecState) : RecState :=
  match newLevel with
  | some l => { s with recordLevel := l }
  | none => s

/-- One event delivered to the recorder, with its observation time. -/
inductive Event where
  | requestheaders (now : Int) (fid : String) (req : Request)
  | response (now : Int) (fid : String) (req : Request) (resp : Response)
  | wsMessage (now : Int) (fid : String) (req : Request) (messages : List WsMessage)
  | wsEnd
  | configure (newLevel : Option Int)
  deriving DecidableEq

/-- Dispatch one event to its handler. -/
def step (s : RecState) : Event → RecState
  | Event.requestheaders now fid req => requestheaders now fid req s
  | Event.response now fid req resp => response now fid req resp s
  | Event.wsMessage now fid req messages => websocket_message now fid req messages s
  | Event.wsEnd => websocket_end s
  | Event.configure newLevel => configure newLevel s

/-- Process a list of events in order. -/
def run (s : RecState) : List Event → RecState
  | [] => s
  | e :: es => run (step s e) es

/-- Process a list of events from a fresh recorder at the given level. -/
def runInit (recordLevel : Int) (es : List Event) : RecState :=
  run (initState recordLevel) es

/-- `x['type'] == 'request'` on a generic-log entry. -/
def isRequestEntry : ActivityEntry → Bool
  | ActivityEntry.request _ => true
  | ActivityEntry.response _ => false

/-- `x['type'] == 'response'` on a generic-log entry. -/
def isResponseEntry : ActivityEntry → Bool
  | ActivityEntry.request _ => false
  | ActivityEntry.response _ => true

/-- Timestamp field of a generic-log entry (for `network_log[0]["timestamp"]`). -/
def entryTimestamp : ActivityEntry → Int
  | ActivityEntry.request r => r.timestamp
  | ActivityEntry.response r => r.timestamp

/-- The `session_summary.json` object built in `done`. -/
structure SessionSummary where
  sessionId : String
  recordLevel : Int
  startTime : Option Int
  endTime : Int
  totalRequests : Nat
  totalResponses : Nat
  performanceMetricsCount : Nat
  websocketMessagesCount : Nat
  fileNetworkActivity : String
  filePerformanceMetrics : Option String
  fileWebsocketMessages : Option String
  fileRecorderLog : String
  deriving DecidableEq

/-- The contents of the artifacts `done` writes: the generic log, the
performance map when non-empty, the stream log when non-empty, the summary. -/
structure Artifacts where
  networkActivity : List ActivityEntry
  performanceMetrics : Option (List (String × PerfRecord))
  websocketMessages : Option (List WsEntry)
  summary : SessionSummary
  deriving DecidableEq

/-- Contents written by a fully successful `done` call at time `now`, with the
session directory name `dir`. Mirrors the body of the `try` block. -/
def doneArtifacts (dir : String) (now : Int) (s : RecState) : Artifacts :=
  let requestCount := (s.networkLog.filter isRequestEntry).length
  let responseCount := (s.networkLog.filter isResponseEntry).length
  { networkActivity := s.networkLog
    performanceMetrics :=
      if s.performanceMetrics.isEmpty then none else some s.performanceMetrics
    websocketMessages :=
      if s.websocketMessages.isEmpty then none else some s.websocketMessages
    summary :=
      { sessionId := dir
        recordLevel := s.recordLevel
        startTime := (s.networkLog.head?).map entryTimestamp
        endTime := now
        totalRequests := requestCount
        totalResponses := responseCount
        performanceMetricsCount := s.performanceMetrics.length
        websocketMessagesCount := s.websocketMessages.length
        fileNetworkActivity := dir ++ "/network_activity.json"
        filePerformanceMetrics :=
          if s.performanceMetrics.isEmpty then none
          else some (dir ++ "/performance_metrics.json")
        fileWebsocketMessages :=
          if s.websocketMessages.isEmpty then none
          else some (dir ++ "/websocket_messages.json")
        fileRecorderLog := dir ++ "/recorder.log" } }

/-- The four `json.dump` calls `done` may attempt, in source order. -/
inductive WriteTarget where
  | network
  | performance
  | websocket
  | summary
  deriving DecidableEq

/-- The writes `done` attempts for state `s`, in order: the network write
always, the performance and websocket writes when their stores are non-empty,
the summary write always. -/
def attemptedWrites (s : RecState) : List WriteTarget :=
  WriteTarget.network ::
    ((if s.performanceMetrics.isEmpty then [] else [WriteTarget.performance]) ++
     (if s.websocketMessages.isEmpty then [] else [WriteTarget.websocket]) ++
     [WriteTarget.summary])

/-- Outcome of a `done` call: the exception it re-raises or the artifacts it
wrote, plus the diagnostic-log lines it emitted. -/
structure DoneResult where
  outcome : Except WriteTarget Artifacts
  diag : List String

/-- The `logger.error` line emitted in the `except` branch of `done`. -/
def saveErrorLine : String := "Error saving recorded data"

/-- Handler `done()`: one `try` block performing the four writes in order and
logging progress; any raised write error is caught once, logged, and re-raised
(`raise`), so the first failing write aborts the rest and propagates. -/
def done (fails : WriteTarget → Bool) (dir : String) (now : Int)
    (s : RecState) : DoneResult :=
  let d0 := ["Saving recorded data..."]
  if fails WriteTarget.network then
    { outcome := Except.error WriteTarget.network, diag := d0 ++ [saveErrorLine] }
  else
    let d1 := d0 ++ ["Network activity saved"]
    if !s.performanceMetrics.isEmpty && fails WriteTarget.performance then
      { outcome := Except.error WriteTarget.performance, diag := d1 ++ [saveErrorLine] }
    else
      let d2 := d1 ++
        (if s.performanceMetrics.isEmpty then [] else ["Performance metrics saved"])
      if !s.websocketMessages.isEmpty && fails WriteTarget.websocket then
        { outcome := Except.error WriteTarget.websocket, diag := d2 ++ [saveErrorLine] }
      else
        let d3 := d2 ++
          (if s.websocketMessages.isEmpty then [] else ["WebSocket messages saved"])
        if fails WriteTarget.summary then
          { outcome := Except.error WriteTarget.summary, diag := d3 ++ [saveErrorLine] }
        else
          { outcome := Except.ok (doneArtifacts dir now s)
            diag := d3 ++ ["Session summary saved",
                           "LayeredRecorder session completed successfully"] }

/-! Spec-side predicates, written from the specification text, used to compare
the code embedding above against the specified conditions. -/

/-- Key list of an association list. -/
def dkeys (l : List (String × α)) : List String := l.map Prod.fst

/-- URL of a response event, `none` for any other event. -/
def eventResponseUrl : Event → Option String
  | Event.response _ _ req _ => some req.url
  | _ => none

/-- Spec-side condition for the performance artifact: some response event was
processed while the active level (initially `l`, updated by configure events)
was at least 3. -/
def hadPerfResponse (l : Int) : List Event → Bool
  | [] => false
  | Event.response _ _ _ _ :: es => decide (3 ≤ l) || hadPerfResponse l es
  | Event.configure (some m) :: es => hadPerfResponse m es
  | _ :: es => hadPerfResponse l es

/-- Spec-side condition: the active level stays below 2 at every processed
event (initially `l`, updated by configure events). -/
def allBelow2 (l : Int) : List Event → Bool
  | [] => true
  | Event.configure (some m) :: es => decide (l < 2) && allBelow2 m es
  | _ :: es => decide (l < 2) && allBelow2 l es

/-- Spec-side condition: no event of the list writes a performance record for
URL `u`, i.e. no response to `u` is processed while the active level is ≥ 3. -/
def noPerfWrite (u : String) (l : Int) : List Event → Bool
  | [] => true
  | Event.response _ _ req _ :: es =>
      !(decide (3 ≤ l) && decide (req.url = u)) && noPerfWrite u l es
  | Event.configure (some m) :: es => noPerfWrite u m es
  | _ :: es => noPerfWrite u l es

/-- A generic-log entry carrying neither body-size nor body-preview field. -/
def noBodyFields : ActivityEntry → Bool
  | ActivityEntry.request r => r.bodySize.isNone && r.bodyPreview.isNone
  | ActivityEntry.response r => r.bodySize.isNone && r.bodyPreview.isNone

/-! Helper lemmas about the keyed stores and the event loop. -/

theorem dlookup_dinsert_self (k : String) (v : α) (l : List (String × α)) :
    dlookup k (dinsert k v l) = some v := by
  induction l with
  | nil => simp [dinsert, dlookup]
  | cons a rest ih =>
    obtain ⟨k1, v1⟩ := a
    by_cases h : k1 = k
    · simp [dinsert, dlookup, h]
    · simp [dinsert, dlookup, h, ih]

theorem dlookup_dinsert_ne (k u : String) (h : k ≠ u) (v : α) (l : List (String × α)) :
    dlookup u (dinsert k v l) = dlookup u l := by
  induction l with
  | nil => simp [dinsert, dlookup, h]
  | cons a rest ih =>
    obtain ⟨k1, v1⟩ := a
    by_cases h1 : k1 = k
    · subst h1
      simp [dinsert, dlookup, h, ih]
    · simp [dinsert, dlookup, h1, ih]

theorem dinsert_isEmpty (k : String) (v : α) (l : List (String × α)) :
    (dinsert k v l).isEmpty = false := by
  cases l with
  | nil => rfl
  | cons a rest =>
    obtain ⟨k1, v1⟩ := a
    by_cases h : k1 = k <;> simp [dinsert, h]

theorem dkeys_dinsert_toFinset (k : String) (v : α) (l : List (String × α)) :
    (dkeys (dinsert k v l)).toFinset = insert k (dkeys l).toFinset := by
  induction l with
  | nil => simp [dinsert, dkeys]
  | cons a rest ih =>
    obtain ⟨k1, v1⟩ := a
    by_cases h : k1 = k
    · simp [dinsert, dkeys, h]
    · simp only [dinsert, dkeys, List.map_cons, if_neg h] at ih ⊢
      rw [List.toFinset_cons, List.toFinset_cons, ih, Finset.Insert.comm]

theorem dkeys_dinsert_nodup (k : String) (v : α) (l : List (String × α))
    (h : (dkeys l).Nodup) : (dkeys (dinsert k v l)).Nodup := by
  induction l with
  | nil => simp [dinsert, dkeys]
  | cons a rest ih =>
    obtain ⟨k1, v1⟩ := a
    simp only [dkeys, List.map_cons, List.nodup_cons] at h
    by_cases h1 : k1 = k
    · subst h1
      simpa [dinsert, dkeys, List.nodup_cons] using h
    · have ih1 := ih h.2
      simp only [dinsert, dkeys, List.map_cons, if_neg h1, List.nodup_cons]
      refine ⟨?_, ih1⟩
      intro hmem
      have : k1 ∈ (dkeys (dinsert k v rest)).toFinset := by
        simpa [dkeys] using hmem
      rw [dkeys_dinsert_toFinset] at this
      rcases Finset.mem_insert.mp this with h2 | h2
      · exact h1 h2
      · exact h.1 (by simpa [dkeys] using h2)

theorem run_append (s : RecState) (es1 es2 : List Event) :
    run s (es1 ++ es2) = run (run s es1) es2 := by
  induction es1 generalizing s with
  | nil => rfl
  | cons e es ih => simp [run, ih]

theorem response_recordLevel (now : Int) (fid : String) (req : Request)
    (resp : Response) (s : RecState) :
    (response now fid req resp s).recordLevel = s.recordLevel := by
  unfold response
  by_cases h : 3 ≤ s.recordLevel <;> simp [h]

theorem response_networkLog (now : Int) (fid : String) (req : Request)
    (resp : Response) (s : RecState) :
    (response now fid req resp s).networkLog =
      s.networkLog ++ [ActivityEntry.response (responseEntryOf s now fid req resp)] := by
  unfold response
  by_cases h : 3 ≤ s.recordLevel <;> simp [h]

theorem response_performanceMetrics (now : Int) (fid : String) (req : Request)
    (resp : Response) (s : RecState) :
    (response now fid req resp s).performanceMetrics =
      if 3 ≤ s.recordLevel then
        dinsert req.url (perfRecordOf s now fid req resp) s.performanceMetrics
      else s.performanceMetrics := by
  unfold response
  by_cases h : 3 ≤ s.recordLevel <;> simp [h]

theorem response_websocketMessages (now : Int) (fid : String) (req : Request)
    (resp : Response) (s : RecState) :
    (response now fid req resp s).websocketMessages = s.websocketMessages := by
  unfold response
  by_cases h : 3 ≤ s.recordLevel <;> simp [h]

theorem response_requestTimestamps (now : Int) (fid : String) (req : Request)
    (resp : Response) (s : RecState) :
    (response now fid req resp s).requestTimestamps = s.requestTimestamps := by
  unfold response
  by_cases h : 3 ≤ s.recordLevel <;> simp [h]

theorem websocket_message_performanceMetrics (now : Int) (fid : String) (req : Request)
    (messages : List WsMessage) (s : RecState) :
    (websocket_message now fid req messages s).performanceMetrics = s.performanceMetrics := by
  unfold websocket_message
  by_cases h : 4 ≤ s.recordLevel <;> simp [h]

theorem websocket_message_networkLog (now : Int) (fid : String) (req : Request)
    (messages : List WsMessage) (s : RecState) :
    (websocket_message now fid req messages s).networkLog = s.networkLog := by
  unfold websocket_message
  by_cases h : 4 ≤ s.recordLevel <;> simp [h]

theorem websocket_message_recordLevel (now : Int) (fid : String) (req : Request)
    (messages : List WsMessage) (s : RecState) :
    (websocket_message now fid req messages s).recordLevel = s.recordLevel := by
  unfold websocket_message
  by_cases h : 4 ≤ s.recordLevel <;> simp [h]

theorem configure_performanceMetrics (newLevel : Option Int) (s : RecState) :
    (configure newLevel s).performanceMetrics = s.performanceMetrics := by
  cases newLevel <;> rfl

theorem configure_networkLog (newLevel : Option Int) (s : RecState) :
    (configure newLevel s).networkLog = s.networkLog := by
  cases newLevel <;> rfl

/-- The performance map is empty after a run exactly when it started empty and
no response event was processed while the active level was at least 3. -/
theorem perf_isEmpty_run : ∀ (es : List Event) (s : RecState),
    ((run s es).performanceMetrics).isEmpty
      = (s.performanceMetrics.isEmpty && !hadPerfResponse s.recordLevel es)
  | [], s => by simp [run, hadPerfResponse]
  | e :: es, s => by
    rw [run, perf_isEmpty_run es (step s e)]
    cases e with
    | requestheaders now fid req => simp [step, requestheaders, hadPerfResponse]
    | response now fid req resp =>
      rw [step, response_performanceMetrics, response_recordLevel]
      by_cases h : 3 ≤ s.recordLevel
      · simp [h, dinsert_isEmpty, hadPerfResponse]
      · simp [h, hadPerfResponse]
    | wsMessage now fid req messages =>
      rw [step, websocket_message_performanceMetrics, websocket_message_recordLevel]
      simp [hadPerfResponse]
    | wsEnd => simp [step, websocket_end, hadPerfResponse]
    | configure nl => cases nl <;> simp [step, configure, hadPerfResponse]

/-- Frame lemma: events that never write a performance record for URL `u`
leave the record stored under `u` unchanged. -/
theorem dlookup_run_noPerfWrite (u : String) : ∀ (es : List Event) (s : RecState),
    noPerfWrite u s.recordLevel es = true →
    dlookup u (run s es).performanceMetrics = dlookup u s.performanceMetrics
  | [], s, _ => rfl
  | e :: es, s, h => by
    rw [run]
    cases e with
    | requestheaders now fid req =>
      simp only [noPerfWrite] at h
      rw [dlookup_run_noPerfWrite u es _ (by simpa [step, requestheaders] using h)]
      simp [step, requestheaders]
    | response now fid req resp =>
      simp only [noPerfWrite, Bool.and_eq_true, Bool.not_eq_eq_eq_not, Bool.not_true] at h
      rw [dlookup_run_noPerfWrite u es _
        (by rw [step, response_recordLevel]; exact h.2)]
      rw [step, response_performanceMetrics]
      by_cases h3 : 3 ≤ s.recordLevel
      · have h4 : req.url ≠ u := by
          intro hu
          simp [h3, hu] at h
        rw [if_pos h3, dlookup_dinsert_ne _ _ h4]
      · rw [if_neg h3]
    | wsMessage now fid req messages =>
      simp only [noPerfWrite] at h
      rw [dlookup_run_noPerfWrite u es _
        (by rw [step, websocket_message_recordLevel]; exact h)]
      rw [step, websocket_message_performanceMetrics]
    | wsEnd =>
      simp only [noPerfWrite] at h
      simp only [step, websocket_end]
      exact dlookup_run_noPerfWrite u es s h
    | configure nl =>
      cases nl with
      | some m =>
        simp only [noPerfWrite] at h
        rw [dlookup_run_noPerfWrite u es _ (by simpa [step, configure] using h)]
        rfl
      | none =>
        simp only [noPerfWrite] at h
        rw [dlookup_run_noPerfWrite u es _ (by simpa [step, configure] using h)]
        rfl

/-- Run invariant for the performance map keys: they stay duplicate-free and
within the set of URLs of processed response events. -/
theorem perf_keys_run : ∀ (es : List Event) (s : RecState),
    (dkeys s.performanceMetrics).Nodup →
    (dkeys (run s es).performanceMetrics).Nodup ∧
    (dkeys (run s es).performanceMetrics).toFinset ⊆
      (dkeys s.performanceMetrics).toFinset ∪ (es.filterMap eventResponseUrl).toFinset
  | [], s, h => by simpa [run] using h
  | e :: es, s, h => by
    rw [run]
    cases e with
    | requestheaders now fid req =>
      have ih := perf_keys_run es (step s (Event.requestheaders now fid req))
        (by simpa [step, requestheaders] using h)
      refine ⟨ih.1, ih.2.trans ?_⟩
      simp [step, requestheaders, eventResponseUrl, List.filterMap_cons]
    | response now fid req resp =>
      by_cases h3 : 3 ≤ s.recordLevel
      · have hkeys : (step s (Event.response now fid req resp)).performanceMetrics
            = dinsert req.url (perfRecordOf s now fid req resp) s.performanceMetrics := by
          rw [step, response_performanceMetrics, if_pos h3]
        have ih := perf_keys_run es (step s (Event.response now fid req resp))
          (by rw [hkeys]; exact dkeys_dinsert_nodup _ _ _ h)
        refine ⟨ih.1, ih.2.trans ?_⟩
        rw [hkeys, dkeys_dinsert_toFinset]
        simp only [List.filterMap_cons, eventResponseUrl, List.toFinset_cons]
        intro x hx
        rcases Finset.mem_union.mp hx with hx | hx
        · rcases Finset.mem_insert.mp hx with hx | hx
          · exact Finset.mem_union_right _ (by rw [hx]; exact Finset.mem_insert_self _ _)
          · exact Finset.mem_union_left _ hx
        · exact Finset.mem_union_right _ (Finset.mem_insert_of_mem hx)
      · have hkeys : (step s (Event.response now fid req resp)).performanceMetrics
            = s.performanceMetrics := by
          rw [step, response_performanceMetrics, if_neg h3]
        have ih := perf_keys_run es (step s (Event.response now fid req resp))
          (by rw [hkeys]; exact h)
        refine ⟨ih.1, ih.2.trans ?_⟩
        rw [hkeys]
        simp only [List.filterMap_cons, eventResponseUrl, List.toFinset_cons]
        exact Finset.union_subset_union_right (Finset.subset_insert _ _)
    | wsMessage now fid req messages =>
      have ih := perf_keys_run es (step s (Event.wsMessage now fid req messages))
        (by rw [step, websocket_message_performanceMetrics]; exact h)
      refine ⟨ih.1, ih.2.trans ?_⟩
      rw [step, websocket_message_performanceMetrics]
      simp [eventResponseUrl, List.filterMap_cons]
    | wsEnd =>
      have ih := perf_keys_run es (step s Event.wsEnd) h
      refine ⟨ih.1, ih.2.trans ?_⟩
      simp [step, websocket_end, eventResponseUrl, List.filterMap_cons]
    | configure nl =>
      have ih := perf_keys_run es (step s (Event.configure nl))
        (by rw [step, configure_performanceMetrics]; exact h)
      refine ⟨ih.1, ih.2.trans ?_⟩
      rw [step, configure_performanceMetrics]
      simp [eventResponseUrl, List.filterMap_cons]

/-- Run invariant for level-gated body capture: if every entry so far lacks
body fields and the active level stays below 2, entries keep lacking them. -/
theorem networkLog_noBody_run : ∀ (es : List Event) (s : RecState),
    s.networkLog.all noBodyFields = true →
    allBelow2 s.recordLevel es = true →
    (run s es).networkLog.all noBodyFields = true
  | [], _, hlog, _ => hlog
  | e :: es, s, hlog, hlvl => by
    rw [run]
    cases e with
    | requestheaders now fid req =>
      simp only [allBelow2, Bool.and_eq_true, decide_eq_true_eq] at hlvl
      refine networkLog_noBody_run es _ ?_ (by simpa [step, requestheaders] using hlvl.2)
      have hentry : noBodyFields (ActivityEntry.request (requestEntryOf s now fid req)) = true := by
        unfold requestEntryOf
        rw [if_neg]
        · rfl
        · rintro ⟨h2, -⟩
          omega
      simp [step, requestheaders, List.all_append, hlog, hentry]
    | response now fid req resp =>
      simp only [allBelow2, Bool.and_eq_true, decide_eq_true_eq] at hlvl
      refine networkLog_noBody_run es _ ?_
        (by rw [step, response_recordLevel]; exact hlvl.2)
      have hentry : noBodyFields
          (ActivityEntry.response (responseEntryOf s now fid req resp)) = true := by
        unfold responseEntryOf
        rw [if_neg]
        · rfl
        · rintro ⟨h2, -⟩
          omega
      rw [step, response_networkLog]
      simp [List.all_append, hlog, hentry]
    | wsMessage now fid req messages =>
      simp only [allBelow2, Bool.and_eq_true, decide_eq_true_eq] at hlvl
      refine networkLog_noBody_run es _ ?_
        (by rw [step, websocket_message_recordLevel]; exact hlvl.2)
      rw [step, websocket_message_networkLog]
      exact hlog
    | wsEnd =>
      simp only [allBelow2, Bool.and_eq_true, decide_eq_true_eq] at hlvl
      exact networkLog_noBody_run es _ hlog hlvl.2
    | configure nl =>
      cases nl with
      | some m =>
        simp only [allBelow2, Bool.and_eq_true, decide_eq_true_eq] at hlvl
        exact networkLog_noBody_run es _ hlog (by simpa [step, configure] using hlvl.2)
      | none =>
        simp only [allBelow2, Bool.and_eq_true, decide_eq_true_eq] at hlvl
        exact networkLog_noBody_run es _ hlog (by simpa [step, configure] using hlvl.2)

/-- Duration field of the most recently appended entry, when it is a
Response-kind entry. -/
def lastLoggedDuration (s : RecState) : Option (Option Int) :=
  match s.networkLog.getLast? with
  | some (ActivityEntry.response r) => some r.durationMs
  | _ => none

theorem responseEntryOf_durationMs (s : RecState) (now : Int) (fid : String)
    (req : Request) (resp : Response) :
    (responseEntryOf s now fid req resp).durationMs = durationOf s now fid := by
  unfold responseEntryOf
  by_cases h : 2 ≤ s.recordLevel ∧ contentTruthy resp.content = true <;> simp [h]

/-! Concrete fixtures used by witnesses and counterexamples. -/

/-- A bodyless GET request to URL `u`. -/
def reqU : Request :=
  { method := "GET", url := "u", headers := [], httpVersion := "HTTP/1.1",
    content := none, text := none }

/-- A bodyless GET request to URL `v`. -/
def reqV : Request :=
  { method := "GET", url := "v", headers := [], httpVersion := "HTTP/1.1",
    content := none, text := none }

/-- A POST request carrying a three-byte decodable body. -/
def reqBody : Request :=
  { method := "POST", url := "u", headers := [], httpVersion := "HTTP/1.1",
    content := some [97, 98, 99], text := some "abc" }

/-- A bodyless 200 response. -/
def respOk : Response :=
  { statusCode := 200, headers := [], httpVersion := "HTTP/1.1",
    content := none, text := none }

/-- A 404 response carrying a three-byte decodable body. -/
def respNotFound : Response :=
  { statusCode := 404, headers := [], httpVersion := "HTTP/1.1",
    content := some [100, 101, 102], text := some "def" }

/-- Scenario of claim C1: one streaming connection delivering three
client-to-server then two server-to-client messages, the handler invoked once
per delivered message over the flow's cumulative message buffer, then the
stream ends. -/
def wsScenario : List Event :=
  [Event.wsMessage 1 "ws1" reqU [⟨true, "a"⟩],
   Event.wsMessage 2 "ws1" reqU [⟨true, "a"⟩, ⟨true, "b"⟩],
   Event.wsMessage 3 "ws1" reqU [⟨true, "a"⟩, ⟨true, "b"⟩, ⟨true, "c"⟩],
   Event.wsMessage 4 "ws1" reqU [⟨true, "a"⟩, ⟨true, "b"⟩, ⟨true, "c"⟩, ⟨false, "d"⟩],
   Event.wsMessage 5 "ws1" reqU
     [⟨true, "a"⟩, ⟨true, "b"⟩, ⟨true, "c"⟩, ⟨false, "d"⟩, ⟨false, "e"⟩],
   Event.wsEnd]

/-- Trace for the C6 counterexample: a 200 response to `u` at level 3, a
reconfiguration to level 1, then a 404 response to `u`. -/
def ce6Events : List Event :=
  [Event.response 0 "f1" reqU respOk,
   Event.configure (some 1),
   Event.response 1 "f2" reqU respNotFound]

/-- Suffix trace for the C6 witness: one later response to a different URL. -/
def c6wEs2 : List Event := [Event.response 6 "f2" reqV respNotFound]

/-- Trace for the C7 witness: a request and a response both carrying bodies. -/
def c7Events : List Event :=
  [Event.requestheaders 0 "f" reqBody,
   Event.response 1 "f" reqBody respNotFound]

/-- Write-failure oracle failing only the performance-artifact write. -/
def failPerfOnly : WriteTarget → Bool
  | WriteTarget.performance => true
  | _ => false

/-- Write-failure oracle failing only the network-activity write. -/
def failNetOnly : WriteTarget → Bool
  | WriteTarget.network => true
  | _ => false

/-- Session state holding one performance record (one level-3 response). -/
def statePerfOnly : RecState := response 0 "f" reqU respOk (initState 3)

/-- Session state whose correlator stamps flow `f` at time 5. -/
def stampedState : RecState :=
  { initState 3 with requestTimestamps := [("f", 5)] }

/-! The claims. -/

/-- Claim C1, evaluated at its own scenario: at level 4 a streaming connection
delivers 3 client-to-server and 2 server-to-client messages, the handler being
invoked once per delivered message and seeing the flow's buffered (cumulative)
messages. Because the handler appends one entry for every message currently
buffered, the persisted stream artifact holds 1+2+3+4+5 = 15 entries and the
summary's stream-message count is 15 — not the 5 the claim (and spec) state. -/
theorem c1_stream_log_duplicates_buffered_messages :
    ((doneArtifacts "d" 9 (runInit 4 wsScenario)).websocketMessages).map List.length = some 15
    ∧ (doneArtifacts "d" 9 (runInit 4 wsScenario)).summary.websocketMessagesCount = 15 :=
  ⟨rfl, rfl⟩

/-- Claim C2, counterexample: with the network write succeeding and the
optional performance write failing, finalize surfaces the error outward
(the single try/except block re-raises every caught write failure), refuting
the claim that only the mandatory network write's failure propagates. -/
theorem c2_counterexample_optional_write_failure_propagates :
    failPerfOnly WriteTarget.network = false
    ∧ (done failPerfOnly "d" 1 statePerfOnly).outcome
        = Except.error WriteTarget.performance :=
  ⟨rfl, rfl⟩

/-- Claim C2, amended: during finalize the first failing artifact write —
the mandatory network write or any of the optional performance, stream, and
summary writes that are attempted — aborts the remaining writes and propagates
to the caller; every such failure is first recorded in the diagnostic log.
When no attempted write fails, finalize returns all artifacts. -/
theorem c2_finalize_failure_propagation (fails : WriteTarget → Bool) (dir : String)
    (now : Int) (s : RecState) :
    (done fails dir now s).outcome
      = (match (attemptedWrites s).find? fails with
         | some t => Except.error t
         | none => Except.ok (doneArtifacts dir now s))
    ∧ ((done fails dir now s).outcome.isOk = false →
        saveErrorLine ∈ (done fails dir now s).diag) := by
  unfold done attemptedWrites
  cases h1 : fails WriteTarget.network <;>
    cases h2 : s.performanceMetrics.isEmpty <;>
    cases h3 : fails WriteTarget.performance <;>
    cases h4 : s.websocketMessages.isEmpty <;>
    cases h5 : fails WriteTarget.websocket <;>
    cases h6 : fails WriteTarget.summary <;>
    simp [h1, h2, h3, h4, h5, h6, List.find?, Except.isOk, Except.toBool]

/-- Witness for the amended C2 theorem: the failing network write at a fresh
session is recorded in the diagnostic log before propagating. -/
theorem c2_finalize_failure_propagation_witness :
    saveErrorLine ∈ (done failNetOnly "d" 0 (initState 3)).diag :=
  (c2_finalize_failure_propagation failNetOnly "d" 0 (initState 3)).2 rfl

/-- Claim C3, counterexample: finalizing the same (here: fresh, eventless)
session state at times 0 and 1 produces different summary artifact contents,
because the summary embeds the finalize call's own time as its end-time
field; so the two calls do not write identical content for all artifacts. -/
theorem c3_counterexample_summary_content_differs :
    (doneArtifacts "d" 0 (initState 3)).summary
      ≠ (doneArtifacts "d" 1 (initState 3)).summary := by
  decide

/-- Claim C3, amended: finalizing twice with no events in between writes
identical network, performance, and stream artifacts, and summaries identical
in every field except the end time, which records each call's own time. -/
theorem c3_finalize_idempotent_except_end_time (dir : String) (t1 t2 : Int)
    (s : RecState) :
    (doneArtifacts dir t1 s).networkActivity = (doneArtifacts dir t2 s).networkActivity
    ∧ (doneArtifacts dir t1 s).performanceMetrics
        = (doneArtifacts dir t2 s).performanceMetrics
    ∧ (doneArtifacts dir t1 s).websocketMessages
        = (doneArtifacts dir t2 s).websocketMessages
    ∧ { (doneArtifacts dir t1 s).summary with endTime := 0 }
        = { (doneArtifacts dir t2 s).summary with endTime := 0 }
    ∧ (doneArtifacts dir t1 s).summary.endTime = t1 :=
  ⟨rfl, rfl, rfl, rfl, rfl⟩

/-- Claim C4: a response whose flow identifier was stamped at time t0 ≤ now
gets duration now − t0 ≥ 0 recorded in its appended entry; a response whose
flow identifier was never stamped gets the unknown sentinel recorded, and the
handler completes normally, appending exactly one entry. -/
theorem c4_response_duration_correlation (s : RecState) (now : Int) (fid : String)
    (req : Request) (resp : Response) :
    (∀ t0 : Int, dlookup fid s.requestTimestamps = some t0 → t0 ≤ now →
      lastLoggedDuration (response now fid req resp s) = some (some (now - t0))
        ∧ 0 ≤ now - t0)
    ∧ (dlookup fid s.requestTimestamps = none →
      lastLoggedDuration (response now fid req resp s) = some none
        ∧ (response now fid req resp s).networkLog.length
            = s.networkLog.length + 1) := by
  have hlast : lastLoggedDuration (response now fid req resp s)
      = some (durationOf s now fid) := by
    unfold lastLoggedDuration
    rw [response_networkLog, List.getLast?_concat]
    exact congrArg some (responseEntryOf_durationMs s now fid req resp)
  constructor
  · intro t0 h0 hle
    refine ⟨?_, by omega⟩
    rw [hlast]
    unfold durationOf
    rw [h0]
  · intro h0
    constructor
    · rw [hlast]
      unfold durationOf
      rw [h0]
    · rw [response_networkLog, List.length_append]
      rfl

/-- Witness for C4: flow `f` stamped at 5 answered at 7 yields duration 2; an
unstamped flow `g` yields the sentinel. -/
theorem c4_response_duration_correlation_witness :
    (lastLoggedDuration (response 7 "f" reqU respOk stampedState) = some (some 2)
      ∧ (0 : Int) ≤ 7 - 5)
    ∧ lastLoggedDuration (response 7 "g" reqU respOk (initState 3)) = some none := by
  refine ⟨⟨?_, ?_⟩, ?_⟩
  · exact ((c4_response_duration_correlation stampedState 7 "f" reqU respOk).1 5 rfl
      (by decide)).1
  · exact ((c4_response_duration_correlation stampedState 7 "f" reqU respOk).1 5 rfl
      (by decide)).2
  · exact ((c4_response_duration_correlation (initState 3) 7 "g" reqU respOk).2 rfl).1

/-- Claim C5: after finalize the performance artifact is present exactly when
at least one response event was processed while the configured level in effect
was at least 3, under arbitrary runtime reconfiguration. -/
theorem c5_perf_artifact_presence (l : Int) (es : List Event) (dir : String)
    (now : Int) :
    ((doneArtifacts dir now (runInit l es)).performanceMetrics).isSome
      = hadPerfResponse l es := by
  have h2 : (runInit l es).performanceMetrics.isEmpty = !hadPerfResponse l es := by
    simpa [runInit, initState] using perf_isEmpty_run es (initState l)
  unfold doneArtifacts
  cases hh : hadPerfResponse l es <;> rw [hh] at h2
  · simp only [Bool.not_false] at h2
    simp [h2]
  · simp only [Bool.not_true] at h2
    simp [h2]

/-- Claim C6, counterexample: after a 200 response to URL `u` at level 3, a
reconfiguration to level 1, and a later 404 response to `u`, the record under
`u` still carries status 200 — not the data of the latest response (404). -/
theorem c6_counterexample_latest_response_not_retained :
    (dlookup "u" (runInit 3 ce6Events).performanceMetrics).map PerfRecord.status
        = some 200
    ∧ respNotFound.statusCode = 404 :=
  ⟨rfl, rfl⟩

/-- Claim C6, amended: the performance map never exceeds the number of
distinct URLs of processed response events, and the record under a URL holds
the data of the latest response to it processed while the active level was at
least 3 — responses processed below level 3 leave the record unchanged. -/
theorem c6_perf_map_bound_and_last_write :
    (∀ (l : Int) (es : List Event),
      (runInit l es).performanceMetrics.length
        ≤ ((es.filterMap eventResponseUrl).dedup).length)
    ∧ (∀ (l : Int) (es1 es2 : List Event) (now : Int) (fid : String)
        (req : Request) (resp : Response),
        3 ≤ (runInit l es1).recordLevel →
        noPerfWrite req.url (runInit l es1).recordLevel es2 = true →
        dlookup req.url
            (runInit l (es1 ++ Event.response now fid req resp :: es2)).performanceMetrics
          = some (perfRecordOf (runInit l es1) now fid req resp)) := by
  constructor
  · intro l es
    unfold runInit
    have h := perf_keys_run es (initState l) (by simp [initState, dkeys])
    have hlen : (run (initState l) es).performanceMetrics.length
        = (dkeys (run (initState l) es).performanceMetrics).length := by
      simp [dkeys]
    rw [hlen, ← List.toFinset_card_of_nodup h.1, ← List.card_toFinset]
    refine le_trans (Finset.card_le_card h.2) ?_
    simp [initState, dkeys]
  · intro l es1 es2 now fid req resp h3 hno
    unfold runInit at *
    rw [run_append, run]
    rw [dlookup_run_noPerfWrite req.url es2 _
      (by rw [step, response_recordLevel]; exact hno)]
    rw [step, response_performanceMetrics, if_pos h3]
    exact dlookup_dinsert_self _ _ _

/-- Witness for the amended C6 theorem: a level-3 response to `u` followed by
a response to a different URL leaves the record for `u` holding that
response's data. -/
theorem c6_perf_map_bound_and_last_write_witness :
    dlookup "u"
        (runInit 3 ([] ++ Event.response 5 "f" reqU respOk :: c6wEs2)).performanceMetrics
      = some (perfRecordOf (runInit 3 []) 5 "f" reqU respOk) :=
  c6_perf_map_bound_and_last_write.2 3 [] c6wEs2 5 "f" reqU respOk (by decide) (by decide)

/-- Claim C7: in a session whose active level stays below 2 at every processed
event, every entry appended to the generic log carries neither body-size nor
body-preview field. -/
theorem c7_no_body_fields_below_level2 (l : Int) (es : List Event)
    (h : allBelow2 l es = true) :
    (runInit l es).networkLog.all noBodyFields = true :=
  networkLog_noBody_run es (initState l) rfl h

/-- Witness for C7: at level 1 a request and a response both carrying bodies
are logged without body fields. -/
theorem c7_no_body_fields_below_level2_witness :
    (runInit 1 c7Events).networkLog.all noBodyFields = true :=
  c7_no_body_fields_below_level2 1 c7Events (by decide)

/-- Claim C8: in the finalized artifacts, the summary's total-request count
equals the number of Request-kind entries of the persisted generic log, and
its total-response count equals the number of Response-kind entries. -/
theorem c8_summary_counts_match_log (dir : String) (now : Int) (s : RecState) :
    (doneArtifacts dir now s).summary.totalRequests
        = ((doneArtifacts dir now s).networkActivity.filter isRequestEntry).length
    ∧ (doneArtifacts dir now s).summary.totalResponses
        = ((doneArtifacts dir now s).networkActivity.filter isResponseEntry).length :=
  ⟨rfl, rfl⟩

/-- Claim C9: a response processed at level ≥ 3 whose flow identifier was
never stamped still creates (or overwrites) the performance record under the
request URL, with its duration field set to the unknown sentinel. -/
theorem c9_perf_record_for_unstamped_flow (s : RecState) (now : Int) (fid : String)
    (req : Request) (resp : Response) (h3 : 3 ≤ s.recordLevel)
    (h0 : dlookup fid s.requestTimestamps = none) :
    dlookup req.url (response now fid req resp s).performanceMetrics
      = some { status := resp.statusCode
               responseTimeMs := none
               contentSizeBytes := contentLen resp.content
               headersCount := resp.headers.length
               requestMethod := req.method
               timestamp := now } := by
  rw [response_performanceMetrics, if_pos h3, dlookup_dinsert_self]
  unfold perfRecordOf durationOf
  rw [h0]

/-- Witness for C9: an unstamped response at level 3 yields a record with the
sentinel duration. -/
theorem c9_perf_record_for_unstamped_flow_witness :
    dlookup "u" (response 7 "g" reqU respOk (initState 3)).performanceMetrics
      = some { status := 200, responseTimeMs := none, contentSizeBytes := 0,
               headersCount := 0, requestMethod := "GET", timestamp := 7 } :=
  c9_perf_record_for_unstamped_flow (initState 3) 7 "g" reqU respOk (by decide) rfl

/-- Claim C10: the request-headers handler only touches the flow-timestamp
table and the generic log — the performance map, the stream-message log, and
the configured level are unchanged by it, for every input flow and state. -/
theorem c10_requestheaders_frame (now : Int) (fid : String) (req : Request)
    (s : RecState) :
    (requestheaders now fid req s).performanceMetrics = s.performanceMetrics
    ∧ (requestheaders now fid req s).websocketMessages = s.websocketMessages
    ∧ (requestheaders now fid req s).recordLevel = s.recordLevel
    ∧ (requestheaders now fid req s).requestTimestamps
        = dinsert fid now s.requestTimestamps
    ∧ (requestheaders now fid req s).networkLog
        = s.networkLog ++ [ActivityEntry.request (requestEntryOf s now fid req)] :=
  ⟨rfl, rfl, rfl, rfl, rfl⟩

end RecordAddon
